import Mathlib

/-!
Verification of the relay synchronization core of the Pico-W dashboard
(`js/app.js`, class `HomeAutomationApp`).

The in-memory relay state `this.relayStates` is a JavaScript object keyed by
channel identifier strings ("relay_1" .. "relay_16").  We embed it as an
association list `Store`: assigning to an existing key replaces the entry in
place, assigning to a fresh key appends it (JavaScript insertion order).
Timestamps (`new Date()`) are embedded as logical instants `Nat`, threaded in
as a parameter `now`.
-/

namespace PicoW

/-- Channel record: the value stored in `this.relayStates[relayId]`, i.e.
`{ status, name, lastChanged }` from `createRelayControls` / `updateRelayStates`
in `js/app.js`.  `lastChanged : Option Nat` — `none` embeds the JavaScript
`null` ("never changed"). -/
structure Channel where
  status : Bool
  name : String
  lastChanged : Option Nat
deriving DecidableEq, Repr

/-- Store of relay states: association list keyed by channel identifier. -/
abbrev Store := List (String × Channel)

/-- Lookup a key in the store (`this.relayStates[relayId]`, `undefined ↦ none`). -/
def getEntry : Store → String → Option Channel
  | [], _ => none
  | p :: rest, id => if p.1 = id then some p.2 else getEntry rest id

/-- Assignment `this.relayStates[relayId] = c`: replace in place when the key
exists, append at the end when it does not (JavaScript object semantics). -/
def setEntry : Store → String → Channel → Store
  | [], id, c => [(id, c)]
  | p :: rest, id, c => if p.1 = id then (id, c) :: rest else p :: setEntry rest id c

/-- Keys of the store, in insertion order. -/
def keys (s : Store) : List String := s.map Prod.fst

/-- The constant `RELAY_NAMES` from `js/app.js`. -/
def RELAY_NAMES : List String :=
  ["Living Room Light", "Kitchen Fan", "Bedroom AC", "Garden Pump",
   "Garage Door", "Pool Pump", "Security Light", "Bathroom Fan",
   "Washing Machine", "Dryer", "Water Heater", "Outdoor Light",
   "Workshop Light", "Shed Power", "Irrigation System", "Backup Power"]

/-- The constant `DEVICE_ID` from `js/app.js`. -/
def DEVICE_ID : String := "pico_w_001"

/-- Channel identifier string: `relay_${i}`. -/
def relayId (i : Nat) : String := "relay_" ++ toString i

/-- The sixteen channel identifiers created by `createRelayControls`. -/
def relayIds : List String := (List.range 16).map (fun k => relayId (k + 1))

/-- JavaScript `x || y` for string-valued expressions: `x` may be `undefined`
(`none`) and the empty string is falsy. -/
def jsOrString (x : Option String) (y : String) : String :=
  match x with
  | none => y
  | some s => if s = "" then y else s

/-- Default channel value installed by `createRelayControls` for channel `i`:
`{ status: false, name: RELAY_NAMES[i-1] || 'Device ' + i, lastChanged: null }`. -/
def defaultChannel (i : Nat) : Channel :=
  { status := false
    name := jsOrString (RELAY_NAMES.get? (i - 1)) ("Device " ++ toString i)
    lastChanged := none }

/-- The store effect of `createRelayControls` (`js/app.js` lines 47–91) run on a
prior store `s`: for `i = 1..16` it assigns
`this.relayStates[relay_i] = { status: false, name: ..., lastChanged: null }`
unconditionally.  On the empty store this is initialization; invoked again it
models a re-initialization. -/
def createRelayControlsFrom (s : Store) : Store :=
  (List.range 16).foldl (fun acc k => setEntry acc (relayId (k + 1)) (defaultChannel (k + 1))) s

/-- One entry of an inbound relay snapshot (`relayData[relayId]`): a loosely
shaped remote object whose `status` and `name` fields may each be absent. -/
structure SnapEntry where
  status : Option Bool
  name : Option String
deriving DecidableEq, Repr

/-- Inbound snapshot payload `relayData`: an object mapping channel identifiers
to snapshot entries, embedded as an association list in key order. -/
abbrev SnapData := List (String × SnapEntry)

/-- The fallback suffix `relayId.split('_')[1]` used for the synthesized name
`'Device ' + relayId.split('_')[1]` (an absent element renders as
`"undefined"` under JavaScript string coercion). -/
def deviceSuffix (id : String) : String :=
  (id.splitOn "_").getD 1 "undefined"

/-- Loop body of `updateRelayStates` (`js/app.js` lines 136–149): for one
snapshot binding, compute `isActive = relay.status || false`, reassign the
channel with `name: relay.name || this.relayStates[relayId]?.name ||
'Device ' + relayId.split('_')[1]` and `lastChanged: new Date()`, and bump the
running `activeCount` when active.  The accumulator carries the store and the
running count. -/
def updStep (now : Nat) (acc : Store × Nat) (p : String × SnapEntry) : Store × Nat :=
  let isActive := p.2.status.getD false
  (setEntry acc.1 p.1
    { status := isActive
      name := jsOrString p.2.name
        (jsOrString ((getEntry acc.1 p.1).map Channel.name) ("Device " ++ deviceSuffix p.1))
      lastChanged := some now },
   acc.2 + (if isActive then 1 else 0))

/-- Method `updateRelayStates(relayData)` (`js/app.js` lines 133–153): folds the
loop body over the snapshot bindings starting from `activeCount = 0`; returns
the new store and the count written to the `active-count` display. -/
def updateRelayStates (s : Store) (data : SnapData) (now : Nat) : Store × Nat :=
  data.foldl (updStep now) (s, 0)

/-- Number of channels currently on in the whole store.  Modelled from the
spec: this is `RelayStateStore.activeCount()` of §4.1, which has no standalone
implementation in the source — `js/app.js` only maintains the running counter
inside `updateRelayStates`.  Used to compare the displayed count against the
spec's notion. -/
def storeActiveCount (s : Store) : Nat :=
  (s.filter (fun p => p.2.status)).length

/-- Remote path written for one channel's boolean:
`home_automation/devices/${DEVICE_ID}/relays/${relayId}/status`. -/
def statusPath (id : String) : String :=
  "home_automation/devices/" ++ DEVICE_ID ++ "/relays/" ++ id ++ "/status"

/-- Method `toggleRelay(relayId)` followed by `setRelay` (`js/app.js` lines
178–193): reads `this.relayStates[relayId].status` with no guard — a missing
entry faults (TypeError on `.status` of `undefined`) before any write is
issued, embedded as `none`; otherwise exactly one write of the negated cached
value to that channel's status path. -/
def toggleRelay (s : Store) (id : String) : Option (List (String × Bool)) :=
  match getEntry s id with
  | none => none
  | some c => some [(statusPath id, !c.status)]

/-- Method `setAllRelays(status)` (`js/app.js` lines 195–210): one batched
`update` whose mapping binds each of the 16 status paths to the same value. -/
def setAllRelays (status : Bool) : List (String × Bool) :=
  (List.range 16).map (fun k => (statusPath (relayId (k + 1)), status))

/-- Method `toggleAllRelays` (`js/app.js` lines 212–228): one batched `update`
binding each channel's status path to
`!(this.relayStates[relayId]?.status || false)` — the per-channel negation of
the locally cached value. -/
def toggleAllRelays (s : Store) : List (String × Bool) :=
  (List.range 16).map (fun k =>
    let id := relayId (k + 1)
    (statusPath id, !(((getEntry s id).map Channel.status).getD false)))

/-- Events driving the app after initialization: an inbound relay snapshot
(from the `relays` subscription in `setupFirebaseListeners` or the one-time
read in `loadRelayStates`), or a user write intent.  The `ok` flag records
whether the remote write resolved or rejected. -/
inductive Event where
  | snapshot (data : SnapData) (now : Nat)
  | toggleIntent (id : String) (ok : Bool)
  | setAllIntent (b : Bool) (ok : Bool)
  | toggleAllIntent (ok : Bool)
deriving DecidableEq, Repr

/-- Observable state of the app: the relay store, the `active-count` display,
the toasts shown by `showNotification` (message, type), and the log of write
batches issued to the remote database (each intent issues exactly one batch —
the code has no retry or queue structure). -/
structure AppState where
  relayStates : Store
  activeDisplay : Nat
  toasts : List (String × String)
  writesLog : List (List (String × Bool))
deriving DecidableEq, Repr

/-- One event step of `HomeAutomationApp`, mirroring `js/app.js`:
snapshots run `updateRelayStates`; `toggleRelay` on a missing id faults before
writing (state unchanged); `setRelay` reports failure with an error toast and
success only on the console; `setAllRelays` / `toggleAllRelays` toast on both
outcomes; no write intent touches `relayStates`. -/
def stepEvent (st : AppState) (e : Event) : AppState :=
  match e with
  | Event.snapshot data now =>
    let r := updateRelayStates st.relayStates data now
    { st with relayStates := r.1, activeDisplay := r.2 }
  | Event.toggleIntent id ok =>
    match getEntry st.relayStates id with
    | none => st
    | some c =>
      { st with
        writesLog := st.writesLog ++ [[(statusPath id, !c.status)]]
        toasts := if ok then st.toasts
                  else st.toasts ++ [("Failed to control " ++ id, "error")] }
  | Event.setAllIntent b ok =>
    { st with
      writesLog := st.writesLog ++ [setAllRelays b]
      toasts := st.toasts ++
        [if ok then ("All relays turned " ++ (if b then "ON" else "OFF"), "success")
         else ("Failed to control all relays", "error")] }
  | Event.toggleAllIntent ok =>
    { st with
      writesLog := st.writesLog ++ [toggleAllRelays st.relayStates]
      toasts := st.toasts ++
        [if ok then ("All relays toggled", "success")
         else ("Failed to toggle all relays", "error")] }

/-! ### Basic lemmas about the store operations -/

theorem getEntry_setEntry_eq (s : Store) (id : String) (c : Channel) :
    getEntry (setEntry s id c) id = some c := by
  induction s with
  | nil => simp [setEntry, getEntry]
  | cons p rest ih =>
    by_cases h : p.1 = id <;> simp [setEntry, getEntry, h, ih]

theorem getEntry_setEntry_ne (s : Store) (id : String) (c : Channel) (j : String)
    (h : j ≠ id) : getEntry (setEntry s id c) j = getEntry s j := by
  induction s with
  | nil => simp [setEntry, getEntry, Ne.symm h]
  | cons p rest ih =>
    by_cases hp : p.1 = id
    · subst hp
      simp [setEntry, getEntry, Ne.symm h]
    · simp only [setEntry, if_neg hp, getEntry]
      by_cases hj : p.1 = j <;> simp [hj, ih]

theorem keys_setEntry_mem (s : Store) (id : String) (c : Channel)
    (h : id ∈ keys s) : keys (setEntry s id c) = keys s := by
  induction s with
  | nil => simp [keys] at h
  | cons p rest ih =>
    by_cases hp : p.1 = id
    · simp [setEntry, hp, keys]
    · simp only [keys, List.map_cons, List.mem_cons] at h
      rcases h with h | h
      · exact absurd h.symm hp
      · have h2 := ih h
        simp only [keys] at h2
        simp [setEntry, if_neg hp, keys, h2]

theorem keys_setEntry_not_mem (s : Store) (id : String) (c : Channel)
    (h : id ∉ keys s) : keys (setEntry s id c) = keys s ++ [id] := by
  induction s with
  | nil => simp [setEntry, keys]
  | cons p rest ih =>
    simp only [keys, List.map_cons, List.mem_cons, not_or] at h
    have hp : ¬ p.1 = id := fun e => h.1 e.symm
    have h2 := ih h.2
    simp only [keys] at h2
    simp [setEntry, if_neg hp, keys, h2]

/-! ### Lemmas about the snapshot fold in updateRelayStates -/

theorem foldl_upd_frame (data : SnapData) (now : Nat) (id : String)
    (h : ∀ p ∈ data, p.1 ≠ id) :
    ∀ (s : Store) (n : Nat),
      getEntry (data.foldl (updStep now) (s, n)).1 id = getEntry s id := by
  induction data with
  | nil => intro s n; rfl
  | cons q rest ih =>
    intro s n
    have hq : q.1 ≠ id := h q (List.mem_cons_self q rest)
    have hrest : ∀ p ∈ rest, p.1 ≠ id := fun p hp => h p (List.mem_cons_of_mem q hp)
    simp only [List.foldl_cons]
    rw [show (updStep now (s, n) q) = ((updStep now (s, n) q).1, (updStep now (s, n) q).2) from rfl]
    rw [ih hrest]
    simp only [updStep]
    exact getEntry_setEntry_ne _ _ _ _ (Ne.symm hq)

theorem foldl_upd_mem (data : SnapData) (now : Nat) (id : String) (e : SnapEntry)
    (hnd : (data.map Prod.fst).Nodup) (hmem : (id, e) ∈ data) :
    ∀ (s : Store) (n : Nat),
      getEntry (data.foldl (updStep now) (s, n)).1 id =
        some { status := e.status.getD false
               name := jsOrString e.name
                 (jsOrString ((getEntry s id).map Channel.name)
                   ("Device " ++ deviceSuffix id))
               lastChanged := some now } := by
  induction data with
  | nil => cases hmem
  | cons q rest ih =>
    intro s n
    simp only [List.map_cons, List.nodup_cons] at hnd
    rcases List.mem_cons.mp hmem with hq | hq
    · subst hq
      have hrest : ∀ p ∈ rest, p.1 ≠ id := by
        intro p hp he
        have h3 : p.1 ∈ List.map Prod.fst rest := List.mem_map_of_mem Prod.fst hp
        rw [he] at h3
        exact hnd.1 h3
      simp only [List.foldl_cons]
      rw [show (updStep now (s, n) (id, e)) =
        ((updStep now (s, n) (id, e)).1, (updStep now (s, n) (id, e)).2) from rfl]
      rw [foldl_upd_frame rest now id hrest]
      simp only [updStep]
      exact getEntry_setEntry_eq _ _ _
    · have hne : q.1 ≠ id := by
        intro he
        apply hnd.1
        rw [he]
        have := List.mem_map_of_mem Prod.fst hq
        simpa using this
      simp only [List.foldl_cons]
      rw [show (updStep now (s, n) q) = ((updStep now (s, n) q).1, (updStep now (s, n) q).2) from rfl]
      rw [ih hnd.2 hq]
      simp only [updStep]
      rw [getEntry_setEntry_ne _ _ _ _ (Ne.symm hne)]

theorem keys_foldl_upd (data : SnapData) (now : Nat) :
    ∀ (s : Store) (n : Nat), (∀ p ∈ data, p.1 ∈ keys s) →
      keys (data.foldl (updStep now) (s, n)).1 = keys s := by
  induction data with
  | nil => intro s n _; rfl
  | cons q rest ih =>
    intro s n h
    have hq : q.1 ∈ keys s := h q (List.mem_cons_self q rest)
    simp only [List.foldl_cons]
    rw [show (updStep now (s, n) q) = ((updStep now (s, n) q).1, (updStep now (s, n) q).2) from rfl]
    have hkeys : keys (updStep now (s, n) q).1 = keys s := by
      simp only [updStep]
      exact keys_setEntry_mem _ _ _ hq
    rw [ih _ _ (by intro p hp; rw [hkeys]; exact h p (List.mem_cons_of_mem q hp))]
    exact hkeys

theorem foldl_upd_snd (data : SnapData) (now : Nat) :
    ∀ (s : Store) (n : Nat),
      (data.foldl (updStep now) (s, n)).2 =
        n + (data.filter (fun p => p.2.status.getD false)).length := by
  induction data with
  | nil => intro s n; simp
  | cons q rest ih =>
    intro s n
    simp only [List.foldl_cons]
    rw [show (updStep now (s, n) q) = ((updStep now (s, n) q).1, (updStep now (s, n) q).2) from rfl]
    rw [ih]
    by_cases hq : q.2.status.getD false
    · simp [updStep, List.filter_cons, hq]
      omega
    · simp [updStep, List.filter_cons, hq]

/-! ### Lemmas about the initialization fold in createRelayControlsFrom -/

theorem foldl_init_frame (ks : List Nat) (id : String)
    (h : ∀ k ∈ ks, relayId (k + 1) ≠ id) :
    ∀ s : Store,
      getEntry (ks.foldl (fun acc k => setEntry acc (relayId (k + 1)) (defaultChannel (k + 1))) s) id
        = getEntry s id := by
  induction ks with
  | nil => intro s; rfl
  | cons k rest ih =>
    intro s
    simp only [List.foldl_cons]
    rw [ih (fun j hj => h j (List.mem_cons_of_mem k hj))]
    exact getEntry_setEntry_ne _ _ _ _ (Ne.symm (h k (List.mem_cons_self k rest)))

theorem foldl_init_mem (ks : List Nat) (id : String) (k0 : Nat)
    (hmem : k0 ∈ ks) (hid : relayId (k0 + 1) = id)
    (hnd : (ks.map (fun k => relayId (k + 1))).Nodup) :
    ∀ s : Store,
      getEntry (ks.foldl (fun acc k => setEntry acc (relayId (k + 1)) (defaultChannel (k + 1))) s) id
        = some (defaultChannel (k0 + 1)) := by
  induction ks with
  | nil => cases hmem
  | cons k rest ih =>
    intro s
    simp only [List.map_cons, List.nodup_cons] at hnd
    rcases List.mem_cons.mp hmem with hk | hk
    · subst hk
      have hrest : ∀ j ∈ rest, relayId (j + 1) ≠ id := by
        intro j hj he
        apply hnd.1
        rw [hid, ← he]
        exact List.mem_map_of_mem _ hj
      simp only [List.foldl_cons]
      rw [foldl_init_frame rest id hrest]
      rw [← hid]
      exact getEntry_setEntry_eq _ _ _
    · simp only [List.foldl_cons]
      exact ih hk hnd.2 _

/-! ### Claim C1 -/

/-- C1 counterexample: applying the snapshot `{relay_3: {status: true}}` to a
freshly initialized store at instant 1 and then re-applying the very same
snapshot value at instant 2 updates the last-changed timestamp the second time
as well (from `some 1` to `some 2`), although the delivered state equals the
prior recorded state — `updateRelayStates` stamps `new Date()` unconditionally. -/
theorem C1_counterexample :
    (getEntry ((updateRelayStates (createRelayControlsFrom [])
        [("relay_3", ⟨some true, none⟩)] 1).1) "relay_3" =
      some ⟨true, "Bedroom AC", some 1⟩) ∧
    (getEntry ((updateRelayStates ((updateRelayStates (createRelayControlsFrom [])
        [("relay_3", ⟨some true, none⟩)] 1).1)
        [("relay_3", ⟨some true, none⟩)] 2).1) "relay_3" =
      some ⟨true, "Bedroom AC", some 2⟩) ∧
    ¬ (getEntry ((updateRelayStates ((updateRelayStates (createRelayControlsFrom [])
        [("relay_3", ⟨some true, none⟩)] 1).1)
        [("relay_3", ⟨some true, none⟩)] 2).1) "relay_3" =
      some ⟨true, "Bedroom AC", some 1⟩) := by
  decide

/-- C1 (amended): applying a snapshot entry for a channel replaces that
channel's state with the delivered state and sets its last-changed timestamp
to the current instant unconditionally — also when the delivered state equals
the prior recorded state; re-applying the same snapshot value updates the
timestamp again. -/
theorem C1_snapshot_replaces_state_and_stamps_unconditionally
    (s : Store) (data : SnapData) (now : Nat) (id : String) (e : SnapEntry)
    (hnd : (data.map Prod.fst).Nodup) (hmem : (id, e) ∈ data) :
    (getEntry (updateRelayStates s data now).1 id).map Channel.status =
      some (e.status.getD false) ∧
    (getEntry (updateRelayStates s data now).1 id).map Channel.lastChanged =
      some (some now) := by
  have h := foldl_upd_mem data now id e hnd hmem s 0
  unfold updateRelayStates
  rw [h]
  exact ⟨rfl, rfl⟩

/-- C1 witness: concrete instance of the amended claim — re-delivery of an
unchanged value at instant 2 stamps the timestamp to 2. -/
theorem C1_witness :
    (getEntry (updateRelayStates ((updateRelayStates (createRelayControlsFrom [])
        [("relay_3", ⟨some true, none⟩)] 1).1)
        [("relay_3", (⟨some true, none⟩ : SnapEntry))] 2).1 "relay_3").map Channel.lastChanged =
      some (some 2) :=
  (C1_snapshot_replaces_state_and_stamps_unconditionally
    ((updateRelayStates (createRelayControlsFrom []) [("relay_3", ⟨some true, none⟩)] 1).1)
    [("relay_3", ⟨some true, none⟩)] 2 "relay_3" ⟨some true, none⟩
    (by decide) (by decide)).2

/-! ### Claim C2 -/

/-- C2 counterexample: after initialization the store holds the 16 expected
entries, but applying a snapshot that mentions the out-of-set identifier
`relay_99` appends a 17th entry — the entry set is not preserved. -/
theorem C2_counterexample :
    keys (createRelayControlsFrom []) = relayIds ∧
    (createRelayControlsFrom []).length = 16 ∧
    ((updateRelayStates (createRelayControlsFrom [])
        [("relay_99", ⟨some true, none⟩)] 1).1).length = 17 ∧
    keys ((updateRelayStates (createRelayControlsFrom [])
        [("relay_99", ⟨some true, none⟩)] 1).1) = relayIds ++ ["relay_99"] := by
  decide

/-- C2 (amended): initialization creates exactly 16 entries with
pairwise-distinct channel identifiers, and a snapshot application whose
identifiers all belong to the current entry set leaves the key sequence
unchanged (entries are only mutated, never added or removed); a snapshot
mentioning an identifier outside the set, however, appends a new entry. -/
theorem C2_entry_set_stable_for_known_ids
    (s : Store) (data : SnapData) (now : Nat)
    (h : ∀ p ∈ data, p.1 ∈ keys s) :
    keys (updateRelayStates s data now).1 = keys s ∧
    keys (createRelayControlsFrom []) = relayIds ∧
    relayIds.Nodup ∧ relayIds.length = 16 := by
  refine ⟨keys_foldl_upd data now s 0 h, by decide, by decide, by decide⟩

/-- C2 witness: concrete instance — a snapshot touching only `relay_3` leaves
the key sequence of the initialized store unchanged. -/
theorem C2_witness :
    keys (updateRelayStates (createRelayControlsFrom [])
      [("relay_3", (⟨some true, none⟩ : SnapEntry))] 1).1 =
      keys (createRelayControlsFrom []) :=
  (C2_entry_set_stable_for_known_ids (createRelayControlsFrom [])
    [("relay_3", ⟨some true, none⟩)] 1 (by decide)).1

/-! ### Claim C3 -/

/-- C3 counterexample: after a real snapshot turns `relay_1` on at instant 5,
re-invoking the initialization (`createRelayControls`) resets that live
channel back to off with no timestamp — the code erases snapshot-delivered
state on re-initialization instead of preserving it. -/
theorem C3_counterexample :
    getEntry ((updateRelayStates (createRelayControlsFrom [])
        [("relay_1", ⟨some true, none⟩)] 5).1) "relay_1" =
      some ⟨true, "Living Room Light", some 5⟩ ∧
    getEntry (createRelayControlsFrom ((updateRelayStates (createRelayControlsFrom [])
        [("relay_1", ⟨some true, none⟩)] 5).1)) "relay_1" =
      some ⟨false, "Living Room Light", none⟩ := by
  decide

/-- C3 (amended): re-invoking the initialization is a full reset — for every
channel of the initialized set it yields exactly the same entry as a fresh
initialization (state off, default name, no timestamp), regardless of any
live state previously delivered by snapshots. -/
theorem C3_reinit_resets_every_channel (s : Store) (id : String)
    (h : id ∈ relayIds) :
    getEntry (createRelayControlsFrom s) id = getEntry (createRelayControlsFrom []) id ∧
    (getEntry (createRelayControlsFrom []) id).map Channel.status = some false ∧
    (getEntry (createRelayControlsFrom []) id).map Channel.lastChanged = some none := by
  simp only [relayIds, List.mem_map] at h
  obtain ⟨k0, hk0, hid⟩ := h
  have hk0r : k0 ∈ List.range 16 := hk0
  have hnd : ((List.range 16).map (fun k => relayId (k + 1))).Nodup := by decide
  have h1 := foldl_init_mem (List.range 16) id k0 hk0r hid hnd s
  have h2 := foldl_init_mem (List.range 16) id k0 hk0r hid hnd []
  unfold createRelayControlsFrom
  rw [h1, h2]
  exact ⟨rfl, rfl, rfl⟩

/-- C3 witness: concrete instance — re-initializing a store whose `relay_1`
is live resets `relay_1` to its fresh default. -/
theorem C3_witness :
    getEntry (createRelayControlsFrom ((updateRelayStates (createRelayControlsFrom [])
        [("relay_1", (⟨some true, none⟩ : SnapEntry))] 5).1)) "relay_1" =
      getEntry (createRelayControlsFrom []) "relay_1" :=
  (C3_reinit_resets_every_channel
    ((updateRelayStates (createRelayControlsFrom []) [("relay_1", ⟨some true, none⟩)] 5).1)
    "relay_1" (by decide)).1

/-! ### Claim C4 -/

/-- C4: a single-channel toggle intent on a channel with a cached entry
produces exactly one outgoing write, addressed to exactly that channel's
status path, carrying the logical negation of the locally cached state at the
moment of the intent (no remote read: the value is a function of the cached
entry alone); in particular, when the cached state is on the written value is
`false`. -/
theorem C4_toggle_single_write (s : Store) (id : String) (c : Channel)
    (h : getEntry s id = some c) :
    toggleRelay s id = some [(statusPath id, !c.status)] ∧
    (c.status = true → toggleRelay s id = some [(statusPath id, false)]) := by
  constructor
  · simp [toggleRelay, h]
  · intro hon
    simp [toggleRelay, h, hon]

/-- C4 witness: concrete instance — with `relay_3` cached as on, the toggle
intent writes `false` to its status path. -/
theorem C4_witness :
    toggleRelay ((updateRelayStates (createRelayControlsFrom [])
        [("relay_3", (⟨some true, none⟩ : SnapEntry))] 1).1) "relay_3" =
      some [(statusPath "relay_3", false)] :=
  (C4_toggle_single_write
    ((updateRelayStates (createRelayControlsFrom []) [("relay_3", ⟨some true, none⟩)] 1).1)
    "relay_3" ⟨true, "Bedroom AC", some 1⟩ (by decide)).2 rfl

/-! ### Claim C5 -/

/-- C5: a toggle-all intent produces one batched write of exactly 16 bindings
with pairwise-distinct paths; for each channel `i` of the 16 whose cached
entry is `c`, the binding at position `i - 1` is that channel's status path
bound to the negation of that channel's own cached state — per-channel
independent inversion, not a global constant. -/
theorem C5_toggle_all_per_channel (s : Store) (i : Nat) (h1 : 1 ≤ i) (h2 : i ≤ 16)
    (c : Channel) (hc : getEntry s (relayId i) = some c) :
    (toggleAllRelays s).length = 16 ∧
    ((toggleAllRelays s).map Prod.fst).Nodup ∧
    (toggleAllRelays s).get? (i - 1) = some (statusPath (relayId i), !c.status) := by
  refine ⟨by simp [toggleAllRelays], ?_, ?_⟩
  · have hfst : (toggleAllRelays s).map Prod.fst =
        (List.range 16).map (fun k => statusPath (relayId (k + 1))) := by
      simp [toggleAllRelays]
    rw [hfst]
    decide
  · have hlt : i - 1 < 16 := by omega
    have hsub : i - 1 + 1 = i := by omega
    rw [toggleAllRelays, List.get?_map, List.get?_range hlt]
    simp only [Option.map_some']
    rw [hsub, hc]
    rfl

/-- C5 witness: concrete instance — an initialized store (all channels off)
yields, at position 2 of the batch, the status path of `relay_3` bound to
`true`, the negation of its cached off state. -/
theorem C5_witness :
    (toggleAllRelays (createRelayControlsFrom [])).get? 2 =
      some (statusPath (relayId 3), !(defaultChannel 3).status) :=
  (C5_toggle_all_per_channel (createRelayControlsFrom []) 3 (by decide) (by decide)
    (defaultChannel 3) (by decide)).2.2

/-! ### Claim C6 -/

/-- C6: a write intent whose remote write rejects leaves `relayStates`
identical, entry for entry, to its pre-call value; the failure is surfaced as
exactly one appended error report, and exactly one write batch was issued with
no retry or queuing — for all three intents (single toggle, set-all,
toggle-all). -/
theorem C6_failed_write_leaves_store (st : AppState) :
    (∀ id c, getEntry st.relayStates id = some c →
      (stepEvent st (Event.toggleIntent id false)).relayStates = st.relayStates ∧
      (stepEvent st (Event.toggleIntent id false)).writesLog =
        st.writesLog ++ [[(statusPath id, !c.status)]] ∧
      (stepEvent st (Event.toggleIntent id false)).toasts =
        st.toasts ++ [("Failed to control " ++ id, "error")]) ∧
    (∀ b, (stepEvent st (Event.setAllIntent b false)).relayStates = st.relayStates ∧
      (stepEvent st (Event.setAllIntent b false)).writesLog =
        st.writesLog ++ [setAllRelays b] ∧
      (stepEvent st (Event.setAllIntent b false)).toasts =
        st.toasts ++ [("Failed to control all relays", "error")]) ∧
    ((stepEvent st (Event.toggleAllIntent false)).relayStates = st.relayStates ∧
      (stepEvent st (Event.toggleAllIntent false)).writesLog =
        st.writesLog ++ [toggleAllRelays st.relayStates] ∧
      (stepEvent st (Event.toggleAllIntent false)).toasts =
        st.toasts ++ [("Failed to toggle all relays", "error")]) := by
  refine ⟨?_, ?_, ?_⟩
  · intro id c h
    refine ⟨?_, ?_, ?_⟩ <;> simp [stepEvent, h]
  · intro b
    refine ⟨rfl, rfl, rfl⟩
  · refine ⟨rfl, rfl, rfl⟩

/-- C6 witness: concrete instance — a rejected toggle of `relay_1` on a fresh
app state leaves the store at its initialized value. -/
theorem C6_witness :
    (stepEvent ⟨createRelayControlsFrom [], 0, [], []⟩
        (Event.toggleIntent "relay_1" false)).relayStates =
      createRelayControlsFrom [] :=
  ((C6_failed_write_leaves_store ⟨createRelayControlsFrom [], 0, [], []⟩).1
    "relay_1" (defaultChannel 1) (by decide)).1

/-! ### Claim C7 -/

/-- C7: applying a snapshot leaves every channel it does not mention entirely
unchanged (state, name and prior timestamp, since the whole entry is
preserved); and for a mentioned channel holding an entry with a non-empty
name, the stored name becomes the snapshot's name when that is provided and
non-empty, and is preserved otherwise (`jsOrString` is exactly the source's
`relay.name || existing` fallback). -/
theorem C7_snapshot_frame (s : Store) (data : SnapData) (now : Nat) (id : String) :
    ((∀ p ∈ data, p.1 ≠ id) →
      getEntry (updateRelayStates s data now).1 id = getEntry s id) ∧
    (∀ (e : SnapEntry) (c : Channel),
      (data.map Prod.fst).Nodup → (id, e) ∈ data →
      getEntry s id = some c → c.name ≠ "" →
      (getEntry (updateRelayStates s data now).1 id).map Channel.name =
        some (jsOrString e.name c.name)) := by
  constructor
  · intro h
    exact foldl_upd_frame data now id h s 0
  · intro e c hnd hmem hc hname
    have h := foldl_upd_mem data now id e hnd hmem s 0
    unfold updateRelayStates
    rw [h]
    have hinner : jsOrString ((getEntry s id).map Channel.name)
        ("Device " ++ deviceSuffix id) = c.name := by
      rw [hc]
      simp [jsOrString, hname]
    rw [hinner]
    rfl

/-- C7 witness: concrete instances — a snapshot touching only `relay_3`
leaves `relay_4` untouched, and delivering no name for `relay_3` preserves
its existing name. -/
theorem C7_witness :
    getEntry (updateRelayStates (createRelayControlsFrom [])
        [("relay_3", (⟨some true, none⟩ : SnapEntry))] 1).1 "relay_4" =
      getEntry (createRelayControlsFrom []) "relay_4" ∧
    (getEntry (updateRelayStates (createRelayControlsFrom [])
        [("relay_3", (⟨some true, none⟩ : SnapEntry))] 1).1 "relay_3").map Channel.name =
      some (jsOrString none (defaultChannel 3).name) := by
  constructor
  · exact (C7_snapshot_frame (createRelayControlsFrom [])
      [("relay_3", ⟨some true, none⟩)] 1 "relay_4").1 (by decide)
  · exact (C7_snapshot_frame (createRelayControlsFrom [])
      [("relay_3", ⟨some true, none⟩)] 1 "relay_3").2
      ⟨some true, none⟩ (defaultChannel 3) (by decide) (by decide) (by decide) (by decide)

/-! ### Claim C8 -/

theorem stepEvent_relayStates_of_nonsnapshot (st : AppState) (e : Event)
    (h : ∀ data now, e ≠ Event.snapshot data now) :
    (stepEvent st e).relayStates = st.relayStates := by
  cases e with
  | snapshot data now => exact absurd rfl (h data now)
  | toggleIntent id ok =>
    cases hg : getEntry st.relayStates id <;> simp [stepEvent, hg]
  | setAllIntent b ok => rfl
  | toggleAllIntent ok => rfl

/-- C8: the relay state store is mutated only by inbound snapshot events —
any sequence of events containing no snapshot (toggle intents, set-all and
toggle-all intents, with either write outcome) leaves `relayStates` exactly
unchanged; acknowledgement of an outbound write never commits state locally. -/
theorem C8_store_changes_only_on_snapshot (st : AppState) (es : List Event)
    (h : ∀ e ∈ es, ∀ data now, e ≠ Event.snapshot data now) :
    (es.foldl stepEvent st).relayStates = st.relayStates := by
  induction es generalizing st with
  | nil => rfl
  | cons e rest ih =>
    simp only [List.foldl_cons]
    rw [ih _ (fun x hx => h x (List.mem_cons_of_mem e hx))]
    exact stepEvent_relayStates_of_nonsnapshot st e (h e (List.mem_cons_self e rest))

/-- C8 witness: concrete instance — a successful toggle followed by a failed
toggle-all leaves the initialized store untouched. -/
theorem C8_witness :
    (([Event.toggleIntent "relay_1" true, Event.toggleAllIntent false].foldl stepEvent
        ⟨createRelayControlsFrom [], 0, [], []⟩).relayStates) =
      createRelayControlsFrom [] :=
  C8_store_changes_only_on_snapshot ⟨createRelayControlsFrom [], 0, [], []⟩
    [Event.toggleIntent "relay_1" true, Event.toggleAllIntent false]
    (by
      intro e he data now
      fin_cases he <;> exact fun hc => Event.noConfusion hc)

/-! ### Claim C9 -/

/-- C9 counterexample: with `relay_1` already on in the store (from an earlier
snapshot), applying a snapshot that mentions only `relay_2` (on) leaves two
channels on in the whole store, yet the reported active count is 1 — the code
counts only the channels mentioned in the snapshot just applied. -/
theorem C9_counterexample :
    storeActiveCount ((updateRelayStates ((updateRelayStates (createRelayControlsFrom [])
        [("relay_1", ⟨some true, none⟩)] 1).1)
        [("relay_2", ⟨some true, none⟩)] 2).1) = 2 ∧
    (updateRelayStates ((updateRelayStates (createRelayControlsFrom [])
        [("relay_1", ⟨some true, none⟩)] 1).1)
        [("relay_2", ⟨some true, none⟩)] 2).2 = 1 := by
  decide

/-- C9 (amended): after a snapshot is applied, the reported active count
equals the number of entries of that snapshot whose delivered state is on —
not the number of channels on in the whole store. -/
theorem C9_count_is_snapshot_local (s : Store) (data : SnapData) (now : Nat) :
    (updateRelayStates s data now).2 =
      (data.filter (fun p => p.2.status.getD false)).length := by
  unfold updateRelayStates
  rw [foldl_upd_snd data now s 0]
  exact Nat.zero_add _

/-! ### Claim C10 -/

/-- C10: the single-channel toggle looks up the cached entry with no guard —
when the identifier has a store entry the lookup succeeds and the intent
issues the well-defined negation write, while for an identifier with no store
entry the operation faults on the missing entry (TypeError on reading
`.status` of `undefined`) before issuing any remote write, leaving the app
state untouched. -/
theorem C10_toggle_lookup_unguarded (st : AppState) (id : String) (ok : Bool) :
    (getEntry st.relayStates id = none →
      toggleRelay st.relayStates id = none ∧
      stepEvent st (Event.toggleIntent id ok) = st) ∧
    (∀ c, getEntry st.relayStates id = some c →
      toggleRelay st.relayStates id = some [(statusPath id, !c.status)]) := by
  constructor
  · intro h
    constructor
    · simp [toggleRelay, h]
    · simp [stepEvent, h]
  · intro c h
    simp [toggleRelay, h]

/-- C10 witness: concrete instances — `relay_99` has no entry in the
initialized store, so the toggle faults with no write; `relay_1` has one, so
the negation write is issued. -/
theorem C10_witness :
    toggleRelay (createRelayControlsFrom []) "relay_99" = none ∧
    toggleRelay (createRelayControlsFrom []) "relay_1" =
      some [(statusPath "relay_1", !(defaultChannel 1).status)] := by
  constructor
  · exact ((C10_toggle_lookup_unguarded ⟨createRelayControlsFrom [], 0, [], []⟩
      "relay_99" true).1 (by decide)).1
  · exact (C10_toggle_lookup_unguarded ⟨createRelayControlsFrom [], 0, [], []⟩
      "relay_1" true).2 (defaultChannel 1) (by decide)

end PicoW
